import Mathlib

/-!
Verification of the airpods-battery-cli repository: a shallow embedding of
the Apple Continuity protocol decoder (both the monolithic v5 version and
the modular `AppleContinuityParser`), and of the scanner/registry state
mechanics, with theorems settling the specified properties.

Bytes of a payload (`std::vector<uint8_t>`) are modelled as `List Nat`;
every read of a byte goes through `byteAt`, which applies `% 256`, the
value range of `uint8_t`.
-/

/-- Read byte `i` of a payload. `data[i]` on a `std::vector<uint8_t>`:
the value is always below 256, made explicit here by `% 256`; out-of-range
reads (which the C++ length checks prevent) default to 0. -/
def byteAt (data : List Nat) (i : Nat) : Nat :=
  data.getD i 0 % 256

/-- `struct BatteryLevels` from src/Source/protocol/AirPodsData.hpp:
percentages for left earbud, right earbud and charging case. -/
structure BatteryLevels where
  left : Nat
  right : Nat
  case_ : Nat
deriving Repr, DecidableEq

/-- `struct ChargingState` from src/Source/protocol/AirPodsData.hpp. -/
structure ChargingState where
  leftCharging : Bool
  rightCharging : Bool
  caseCharging : Bool
deriving Repr, DecidableEq

/-- `struct DeviceState` from src/Source/protocol/AirPodsData.hpp. -/
structure DeviceState where
  leftInEar : Bool
  rightInEar : Bool
  bothInCase : Bool
  lidOpen : Bool
deriving Repr, DecidableEq

/-- `struct AirPodsData` from src/Source/protocol/AirPodsData.hpp:
the telemetry produced by the modular parser. -/
structure AirPodsData where
  model : String
  modelId : String
  batteryLevels : BatteryLevels
  chargingState : ChargingState
  deviceState : DeviceState
  broadcastingEar : String
deriving Repr, DecidableEq

/-- Uppercase hexadecimal digit for a value 0..15. -/
def hexDigit (n : Nat) : Char :=
  if n < 10 then Char.ofNat (48 + n) else Char.ofNat (55 + n)

namespace AppleContinuityParser

/-- `PROXIMITY_PAIRING_TYPE` constant of `AppleContinuityParser`. -/
def PROXIMITY_PAIRING_TYPE : Nat := 0x07

/-- `MIN_DATA_LENGTH` constant of `AppleContinuityParser`. -/
def MIN_DATA_LENGTH : Nat := 8

/-- `AppleContinuityParser::ParseModelName`: model name lookup by 16-bit
model id, defaulting to "Unknown AirPods". -/
def ParseModelName (modelId : Nat) : String :=
  if modelId = 0x2014 then "AirPods Pro 2"
  else if modelId = 0x200E then "AirPods Pro"
  else if modelId = 0x2013 then "AirPods 3"
  else if modelId = 0x200F then "AirPods 2"
  else "Unknown AirPods"

/-- `AppleContinuityParser::FormatModelId`: renders the 16-bit model id as
"0x" followed by four uppercase hexadecimal digits, zero-filled
(`std::hex`, `std::uppercase`, `std::setfill('0')`, `std::setw(4)`);
a `uint16_t` value always yields exactly four digits. -/
def FormatModelId (modelId : Nat) : String :=
  "0x" ++ String.mk [hexDigit (modelId / 4096 % 16), hexDigit (modelId / 256 % 16),
                     hexDigit (modelId / 16 % 16), hexDigit (modelId % 16)]

/-- `AppleContinuityParser::ExtractBatteryLevels`: nibble extraction times
ten, case level from the status byte's high nibble. -/
def ExtractBatteryLevels (batteryData statusByte : Nat) : BatteryLevels :=
  { left := ((batteryData &&& 0xF0) >>> 4) * 10
    right := (batteryData &&& 0x0F) * 10
    case_ := ((statusByte &&& 0xF0) >>> 4) * 10 }

/-- `AppleContinuityParser::ExtractChargingState`: charging bits of the
status byte. -/
def ExtractChargingState (statusByte : Nat) : ChargingState :=
  { leftCharging := statusByte &&& 0x02 != 0
    rightCharging := statusByte &&& 0x01 != 0
    caseCharging := statusByte &&& 0x04 != 0 }

/-- `AppleContinuityParser::ExtractDeviceState`: lid/in-ear bits of the
lid byte; `bothInCase` is derived from the two in-ear flags. -/
def ExtractDeviceState (lidData : Nat) : DeviceState :=
  { leftInEar := lidData &&& 0x02 != 0
    rightInEar := lidData &&& 0x01 != 0
    bothInCase := !(lidData &&& 0x02 != 0) && !(lidData &&& 0x01 != 0)
    lidOpen := lidData &&& 0x04 != 0 }

/-- `AppleContinuityParser::DetermineBroadcastingEar`: fixed value. -/
def DetermineBroadcastingEar : String := "right"

/-- `AppleContinuityParser::Parse`: validate length and protocol type,
then decode the fixed layout. -/
def Parse (data : List Nat) : Option AirPodsData :=
  if data.length < MIN_DATA_LENGTH then none
  else if byteAt data 0 ≠ PROXIMITY_PAIRING_TYPE then none
  else
    let modelId := (byteAt data 4 <<< 8) ||| byteAt data 3
    let statusByte := byteAt data 5
    let batteryData := byteAt data 6
    let lidData := byteAt data 7
    some { model := ParseModelName modelId
           modelId := FormatModelId modelId
           batteryLevels := ExtractBatteryLevels batteryData statusByte
           chargingState := ExtractChargingState statusByte
           deviceState := ExtractDeviceState lidData
           broadcastingEar := DetermineBroadcastingEar }

/-- `AppleContinuityParser::CanParse`: minimum length and protocol type. -/
def CanParse (data : List Nat) : Bool :=
  decide (data.length ≥ MIN_DATA_LENGTH) && (byteAt data 0 == PROXIMITY_PAIRING_TYPE)

end AppleContinuityParser

/-- `struct AirPodsData` of src/Source/airpods_battery_cli_v5.cpp (the
monolithic v5 scanner); renamed `AirPodsDataV5` here to keep it apart
from the modular parser's structure of the same C++ name. -/
structure AirPodsDataV5 where
  model : String
  model_id : String
  left_battery : Nat
  right_battery : Nat
  case_battery : Nat
  left_charging : Bool
  right_charging : Bool
  case_charging : Bool
  left_in_ear : Bool
  right_in_ear : Bool
  both_in_case : Bool
  lid_open : Bool
  broadcasting_ear : String
deriving Repr, DecidableEq

/-- The `sprintf_s(model_hex, "0x%04X", model_id)` rendering in
`parse_airpods_data`: "0x" then four zero-filled uppercase hexadecimal
digits (exact for every `uint16_t` value). -/
def format_model_id_v5 (model_id : Nat) : String :=
  "0x" ++ String.mk [hexDigit (model_id / 4096 % 16), hexDigit (model_id / 256 % 16),
                     hexDigit (model_id / 16 % 16), hexDigit (model_id % 16)]

/-- `parse_airpods_data` of src/Source/airpods_battery_cli_v5.cpp: the
monolithic v5 decoder. -/
def parse_airpods_data (data : List Nat) : Option AirPodsDataV5 :=
  if data.length < 8 then none
  else if byteAt data 0 ≠ 0x07 then none
  else
    let model_id := (byteAt data 4 <<< 8) ||| byteAt data 3
    let status := byteAt data 5
    let battery_data := byteAt data 6
    let lid_data := byteAt data 7
    some { model :=
             if model_id = 0x2014 then "AirPods Pro 2"
             else if model_id = 0x200E then "AirPods Pro"
             else if model_id = 0x2013 then "AirPods 3"
             else if model_id = 0x200F then "AirPods 2"
             else "Unknown AirPods"
           model_id := format_model_id_v5 model_id
           case_battery := ((status &&& 0xF0) >>> 4) * 10
           left_battery := ((battery_data &&& 0xF0) >>> 4) * 10
           right_battery := (battery_data &&& 0x0F) * 10
           case_charging := status &&& 0x04 != 0
           left_charging := status &&& 0x02 != 0
           right_charging := status &&& 0x01 != 0
           lid_open := lid_data &&& 0x04 != 0
           left_in_ear := lid_data &&& 0x02 != 0
           right_in_ear := lid_data &&& 0x01 != 0
           both_in_case := !(lid_data &&& 0x02 != 0) && !(lid_data &&& 0x01 != 0)
           broadcasting_ear := "right" }

/-- Field-for-field translation of a v5 telemetry record into the modular
parser's structure, pairing each v5 field with its counterpart. -/
def toModular (v : AirPodsDataV5) : AirPodsData :=
  { model := v.model
    modelId := v.model_id
    batteryLevels := { left := v.left_battery, right := v.right_battery, case_ := v.case_battery }
    chargingState := { leftCharging := v.left_charging, rightCharging := v.right_charging,
                       caseCharging := v.case_charging }
    deviceState := { leftInEar := v.left_in_ear, rightInEar := v.right_in_ear,
                     bothInCase := v.both_in_case, lidOpen := v.lid_open }
    broadcastingEar := v.broadcasting_ear }

/-- `struct BleDevice` from src/Source/ble/BleDevice (fields used by the
scanner); the timestamp is modelled as a plain number of ticks. -/
structure BleDevice where
  deviceId : String
  address : Nat
  rssi : Int
  manufacturerData : List Nat
  timestamp : Nat
  airpodsData : Option AirPodsData
deriving Repr, DecidableEq

namespace WinRtBleScanner

/-- The mutable state of `WinRtBleScanner` relevant to the device
registry: the `devices_` vector and the single `deviceCallback_` slot
(a `std::function`, empty until something is registered). Callbacks are
identified abstractly by a number; invoking one is recorded as an event
rather than executed. -/
structure State where
  devices : List BleDevice
  deviceCallback : Option Nat
deriving Repr, DecidableEq

/-- A freshly constructed `WinRtBleScanner`: no devices, no callback. -/
def State.initial : State :=
  { devices := [], deviceCallback := none }

/-- `WinRtBleScanner::RegisterCallback`: `deviceCallback_ = std::move(callback)` —
assignment into the single slot. -/
def RegisterCallback (s : State) (cb : Nat) : State :=
  { s with deviceCallback := some cb }

/-- `WinRtBleScanner::AddDevice`: append the device to `devices_` under the
lock, then, if a callback is registered, invoke it with the device.
Returns the new state together with the list of callback invocations the
call performs, in order, each as (callback identity, device argument). -/
def AddDevice (s : State) (d : BleDevice) : State × List (Nat × BleDevice) :=
  ({ s with devices := s.devices ++ [d] },
   match s.deviceCallback with
   | some cb => [(cb, d)]
   | none => [])

/-- `WinRtBleScanner::GetDeviceCount`: size of `devices_`. -/
def GetDeviceCount (s : State) : Nat :=
  s.devices.length

/-- Run a sequence of `AddDevice` calls, threading the state. -/
def addAll (s : State) (ds : List BleDevice) : State :=
  ds.foldl (fun t d => (AddDevice t d).1) s

/-- The retry loop of `WinRtBleScanner::OnScannerStopped`:
`do { wait } while (!stopRequested_ && !Start())`. Each loop iteration
waits, reads `stopRequested_`, and — only when the flag is false —
calls `Start()`. The iteration environment supplies, per iteration, the
value the flag read returns (the flag is shared with `Stop()`, which can
set it at any time) and the result `Start()` would return; the function
counts how many `Start()` calls the loop issues. The empty environment
stands for observing the loop up to that point. -/
def retryLoopStarts : List (Bool × Bool) → Nat
  | [] => 0
  | (stopFlag, startOk) :: rest =>
    if stopFlag then 0
    else 1 + (if startOk then 0 else retryLoopStarts rest)

/-- `WinRtBleScanner::OnScannerStopped`: when `destroyRequested_` is set the
handler only signals teardown; otherwise it runs the retry loop. Counts
the `Start()` calls issued. -/
def onScannerStoppedStarts (destroyRequested : Bool) (env : List (Bool × Bool)) : Nat :=
  if destroyRequested then 0 else retryLoopStarts env

end WinRtBleScanner

/-- The captured advertisement payload `07 19 01 14 20 0b 88 8f` from the
repository's protocol tests, used as a concrete evaluation point. -/
def pro2payload : List Nat := [0x07, 0x19, 0x01, 0x14, 0x20, 0x0b, 0x88, 0x8f]

/-- The telemetry the parser produces for `pro2payload`. -/
def samplePro2 : AirPodsData :=
  { model := "AirPods Pro 2", modelId := "0x2014"
    batteryLevels := { left := 80, right := 80, case_ := 0 }
    chargingState := { leftCharging := true, rightCharging := true, caseCharging := false }
    deviceState := { leftInEar := true, rightInEar := true, bothInCase := false, lidOpen := true }
    broadcastingEar := "right" }

/-! ## Helper lemmas -/

theorem getD_mem_of_lt {l : List Nat} {i : Nat} (hi : i < l.length) : l.getD i 0 ∈ l := by
  rw [List.getD_eq_getElem l 0 hi]
  exact List.getElem_mem hi

theorem byteAt_eq_getD {data : List Nat} {i : Nat} (hbytes : ∀ b ∈ data, b < 256)
    (hi : i < data.length) : byteAt data i = data.getD i 0 := by
  have h := hbytes _ (getD_mem_of_lt hi)
  unfold byteAt
  omega

set_option maxRecDepth 4096 in
theorem nibble_arith : ∀ x, x < 256 →
    (x &&& 0xF0) >>> 4 = x / 16 ∧ x &&& 0x0F = x % 16 ∧
    ((x &&& 0x02 != 0) = x.testBit 1) ∧ ((x &&& 0x01 != 0) = x.testBit 0) := by
  decide

theorem parse_eq_some_of (data : List Nat) (h8 : 8 ≤ data.length) (h0 : byteAt data 0 = 7) :
    AppleContinuityParser.Parse data = some
      { model := AppleContinuityParser.ParseModelName ((byteAt data 4 <<< 8) ||| byteAt data 3)
        modelId := AppleContinuityParser.FormatModelId ((byteAt data 4 <<< 8) ||| byteAt data 3)
        batteryLevels := AppleContinuityParser.ExtractBatteryLevels (byteAt data 6) (byteAt data 5)
        chargingState := AppleContinuityParser.ExtractChargingState (byteAt data 5)
        deviceState := AppleContinuityParser.ExtractDeviceState (byteAt data 7)
        broadcastingEar := AppleContinuityParser.DetermineBroadcastingEar } := by
  unfold AppleContinuityParser.Parse AppleContinuityParser.MIN_DATA_LENGTH
    AppleContinuityParser.PROXIMITY_PAIRING_TYPE
  rw [if_neg (by omega), if_neg (by simp [h0])]

theorem parse_eq_none_short (data : List Nat) (h8 : data.length < 8) :
    AppleContinuityParser.Parse data = none := by
  unfold AppleContinuityParser.Parse AppleContinuityParser.MIN_DATA_LENGTH
  rw [if_pos h8]

theorem parse_eq_none_wrong_discriminator (data : List Nat) (h0 : byteAt data 0 ≠ 7) :
    AppleContinuityParser.Parse data = none := by
  unfold AppleContinuityParser.Parse AppleContinuityParser.MIN_DATA_LENGTH
    AppleContinuityParser.PROXIMITY_PAIRING_TYPE
  by_cases h8 : data.length < 8
  · rw [if_pos h8]
  · rw [if_neg h8, if_pos h0]

/-! ## Claims -/

/-- C1: `CanParse` returns true iff the payload has length at least 8 and
its byte at index 0 equals 0x07; being a total function of the byte list,
it is side-effect-free and defined on arbitrary input of any length,
including the empty list. -/
theorem canParse_iff_length_and_discriminator (data : List Nat)
    (hbytes : ∀ b ∈ data, b < 256) :
    AppleContinuityParser.CanParse data = true ↔ 8 ≤ data.length ∧ data.getD 0 0 = 0x07 := by
  unfold AppleContinuityParser.CanParse AppleContinuityParser.MIN_DATA_LENGTH
    AppleContinuityParser.PROXIMITY_PAIRING_TYPE
  simp only [Bool.and_eq_true, decide_eq_true_eq, beq_iff_eq]
  constructor
  · rintro ⟨h1, h2⟩
    refine ⟨h1, ?_⟩
    rw [byteAt_eq_getD hbytes (by omega)] at h2
    exact h2
  · rintro ⟨h1, h2⟩
    exact ⟨h1, by rw [byteAt_eq_getD hbytes (by omega)]; exact h2⟩

/-- C1 witness: the theorem applied to a concrete 8-byte payload. -/
theorem canParse_iff_length_and_discriminator_witness :
    (∀ b ∈ ([7, 0, 0, 0, 0, 0, 0, 0] : List Nat), b < 256) ∧
    (AppleContinuityParser.CanParse [7, 0, 0, 0, 0, 0, 0, 0] = true ↔
      8 ≤ ([7, 0, 0, 0, 0, 0, 0, 0] : List Nat).length ∧
      ([7, 0, 0, 0, 0, 0, 0, 0] : List Nat).getD 0 0 = 0x07) :=
  ⟨by decide, canParse_iff_length_and_discriminator [7, 0, 0, 0, 0, 0, 0, 0] (by decide)⟩

/-- C2: `Parse` returns none iff the payload is shorter than 8 bytes or its
byte at index 0 differs from 0x07; on every other input it returns a
telemetry value — in particular an unrecognized model id still yields a
result, with model name "Unknown AirPods" — and, being a total function,
never faults. -/
theorem parse_none_iff_and_unknown_model (data : List Nat)
    (hbytes : ∀ b ∈ data, b < 256) :
    (AppleContinuityParser.Parse data = none ↔
      data.length < 8 ∨ data.getD 0 0 ≠ 0x07) ∧
    (∀ r, AppleContinuityParser.Parse data = some r →
      ((data.getD 4 0 <<< 8) ||| data.getD 3 0) ≠ 0x2014 →
      ((data.getD 4 0 <<< 8) ||| data.getD 3 0) ≠ 0x200E →
      ((data.getD 4 0 <<< 8) ||| data.getD 3 0) ≠ 0x2013 →
      ((data.getD 4 0 <<< 8) ||| data.getD 3 0) ≠ 0x200F →
      r.model = "Unknown AirPods") := by
  by_cases h8 : data.length < 8
  · refine ⟨?_, ?_⟩
    · rw [parse_eq_none_short data h8]
      simp [h8]
    · intro r hr
      rw [parse_eq_none_short data h8] at hr
      exact Option.noConfusion hr
  · have hb : ∀ i, i < 8 → byteAt data i = data.getD i 0 := fun i hi =>
      byteAt_eq_getD hbytes (by omega)
    by_cases h0 : data.getD 0 0 = 7
    · have hc : byteAt data 0 = 7 := by rw [hb 0 (by omega)]; exact h0
      rw [parse_eq_some_of data (by omega) hc]
      refine ⟨⟨fun h => Option.noConfusion h, ?_⟩, ?_⟩
      · rintro (h | h)
        · exact absurd h h8
        · exact absurd h0 h
      intro r hr hm1 hm2 hm3 hm4
      injection hr with hr
      subst hr
      show AppleContinuityParser.ParseModelName ((byteAt data 4 <<< 8) ||| byteAt data 3) =
        "Unknown AirPods"
      rw [hb 4 (by omega), hb 3 (by omega)]
      unfold AppleContinuityParser.ParseModelName
      rw [if_neg hm1, if_neg hm2, if_neg hm3, if_neg hm4]
    · have hc : byteAt data 0 ≠ 7 := by rw [hb 0 (by omega)]; exact h0
      rw [parse_eq_none_wrong_discriminator data hc]
      refine ⟨⟨fun _ => Or.inr h0, fun _ => rfl⟩, ?_⟩
      intro r hr
      exact Option.noConfusion hr

/-- C2 witness: the theorem applied to a concrete payload whose model id
0x0000 is not in the lookup table. -/
theorem parse_none_iff_and_unknown_model_witness :
    (∀ b ∈ ([7, 0, 0, 0, 0, 0, 0, 0] : List Nat), b < 256) ∧
    ((AppleContinuityParser.Parse [7, 0, 0, 0, 0, 0, 0, 0] = none ↔
        ([7, 0, 0, 0, 0, 0, 0, 0] : List Nat).length < 8 ∨
        ([7, 0, 0, 0, 0, 0, 0, 0] : List Nat).getD 0 0 ≠ 0x07) ∧
      (∀ r, AppleContinuityParser.Parse [7, 0, 0, 0, 0, 0, 0, 0] = some r →
        ((([7, 0, 0, 0, 0, 0, 0, 0] : List Nat).getD 4 0 <<< 8) |||
          ([7, 0, 0, 0, 0, 0, 0, 0] : List Nat).getD 3 0) ≠ 0x2014 →
        ((([7, 0, 0, 0, 0, 0, 0, 0] : List Nat).getD 4 0 <<< 8) |||
          ([7, 0, 0, 0, 0, 0, 0, 0] : List Nat).getD 3 0) ≠ 0x200E →
        ((([7, 0, 0, 0, 0, 0, 0, 0] : List Nat).getD 4 0 <<< 8) |||
          ([7, 0, 0, 0, 0, 0, 0, 0] : List Nat).getD 3 0) ≠ 0x2013 →
        ((([7, 0, 0, 0, 0, 0, 0, 0] : List Nat).getD 4 0 <<< 8) |||
          ([7, 0, 0, 0, 0, 0, 0, 0] : List Nat).getD 3 0) ≠ 0x200F →
        r.model = "Unknown AirPods")) :=
  ⟨by decide, parse_none_iff_and_unknown_model [7, 0, 0, 0, 0, 0, 0, 0] (by decide)⟩

/-- C3: decoding the captured payload 07 19 01 14 20 0b 88 8f yields model
"AirPods Pro 2", modelId "0x2014", batteries left 80 / right 80 / case 0,
left and right charging, case not charging, lid open, both earbuds in ear,
not both in case. -/
theorem parse_pro2_sample :
    AppleContinuityParser.Parse [0x07, 0x19, 0x01, 0x14, 0x20, 0x0b, 0x88, 0x8f] =
      some { model := "AirPods Pro 2", modelId := "0x2014"
             batteryLevels := { left := 80, right := 80, case_ := 0 }
             chargingState := { leftCharging := true, rightCharging := true, caseCharging := false }
             deviceState := { leftInEar := true, rightInEar := true, bothInCase := false,
                              lidOpen := true }
             broadcastingEar := "right" } := by
  decide

/-- C4: for every accepted payload the decoded battery levels are the case
byte's high nibble, the battery byte's high nibble, and the battery byte's
low nibble, each times ten; a nibble value n decodes to n*10 (so 0–10 land
in [0,100], while 11–15 are not clamped by the extraction). -/
theorem battery_extraction_correct (data : List Nat) (hbytes : ∀ b ∈ data, b < 256)
    (r : AirPodsData) (hr : AppleContinuityParser.Parse data = some r) :
    (r.batteryLevels.case_ = data.getD 5 0 / 16 * 10 ∧
     r.batteryLevels.left = data.getD 6 0 / 16 * 10 ∧
     r.batteryLevels.right = data.getD 6 0 % 16 * 10) ∧
    (∀ hn lo s : Nat, hn ≤ 15 → lo ≤ 15 →
      (AppleContinuityParser.ExtractBatteryLevels (16 * hn + lo) s).left = hn * 10 ∧
      (AppleContinuityParser.ExtractBatteryLevels (16 * hn + lo) s).right = lo * 10 ∧
      (AppleContinuityParser.ExtractBatteryLevels s (16 * hn + lo)).case_ = hn * 10 ∧
      (hn ≤ 10 → (AppleContinuityParser.ExtractBatteryLevels (16 * hn + lo) s).left ≤ 100)) := by
  have h8 : ¬ data.length < 8 := by
    intro h
    rw [parse_eq_none_short data h] at hr
    exact Option.noConfusion hr
  have h0 : byteAt data 0 = 7 := by
    by_contra h
    rw [parse_eq_none_wrong_discriminator data h] at hr
    exact Option.noConfusion hr
  rw [parse_eq_some_of data (by omega) h0] at hr
  injection hr with hr
  subst hr
  constructor
  · have h5 := byteAt_eq_getD hbytes (show 5 < data.length by omega)
    have h6 := byteAt_eq_getD hbytes (show 6 < data.length by omega)
    have b5 : data.getD 5 0 < 256 := hbytes _ (getD_mem_of_lt (by omega))
    have b6 : data.getD 6 0 < 256 := hbytes _ (getD_mem_of_lt (by omega))
    refine ⟨?_, ?_, ?_⟩
    · show ((byteAt data 5 &&& 0xF0) >>> 4) * 10 = _
      rw [h5, (nibble_arith _ b5).1]
    · show ((byteAt data 6 &&& 0xF0) >>> 4) * 10 = _
      rw [h6, (nibble_arith _ b6).1]
    · show (byteAt data 6 &&& 0x0F) * 10 = _
      rw [h6, (nibble_arith _ b6).2.1]
  · intro hn lo s hhn hlo
    have hx : 16 * hn + lo < 256 := by omega
    have h1 := (nibble_arith _ hx).1
    have h2 := (nibble_arith _ hx).2.1
    have hdiv : (16 * hn + lo) / 16 = hn := by omega
    have hmod : (16 * hn + lo) % 16 = lo := by omega
    refine ⟨?_, ?_, ?_, ?_⟩
    · show (((16 * hn + lo) &&& 0xF0) >>> 4) * 10 = hn * 10
      rw [h1, hdiv]
    · show ((16 * hn + lo) &&& 0x0F) * 10 = lo * 10
      rw [h2, hmod]
    · show (((16 * hn + lo) &&& 0xF0) >>> 4) * 10 = hn * 10
      rw [h1, hdiv]
    · intro h10
      show (((16 * hn + lo) &&& 0xF0) >>> 4) * 10 ≤ 100
      rw [h1, hdiv]
      omega

/-- C4 witness: the theorem applied to the captured payload. -/
theorem battery_extraction_correct_witness :
    (∀ b ∈ pro2payload, b < 256) ∧
    AppleContinuityParser.Parse pro2payload = some samplePro2 ∧
    ((samplePro2.batteryLevels.case_ = pro2payload.getD 5 0 / 16 * 10 ∧
      samplePro2.batteryLevels.left = pro2payload.getD 6 0 / 16 * 10 ∧
      samplePro2.batteryLevels.right = pro2payload.getD 6 0 % 16 * 10) ∧
     (∀ hn lo s : Nat, hn ≤ 15 → lo ≤ 15 →
       (AppleContinuityParser.ExtractBatteryLevels (16 * hn + lo) s).left = hn * 10 ∧
       (AppleContinuityParser.ExtractBatteryLevels (16 * hn + lo) s).right = lo * 10 ∧
       (AppleContinuityParser.ExtractBatteryLevels s (16 * hn + lo)).case_ = hn * 10 ∧
       (hn ≤ 10 → (AppleContinuityParser.ExtractBatteryLevels (16 * hn + lo) s).left ≤ 100))) :=
  ⟨by decide, by decide,
   battery_extraction_correct pro2payload (by decide) samplePro2 (by decide)⟩

/-- C5: every successful decode satisfies
bothInCase = !(leftInEar || rightInEar), where leftInEar mirrors bit 1 and
rightInEar bit 0 of the payload's byte 7; bothInCase is derived from the
two in-ear flags. -/
theorem bothInCase_derived (data : List Nat) (hbytes : ∀ b ∈ data, b < 256)
    (r : AirPodsData) (hr : AppleContinuityParser.Parse data = some r) :
    r.deviceState.bothInCase = !(r.deviceState.leftInEar || r.deviceState.rightInEar) ∧
    r.deviceState.leftInEar = (data.getD 7 0).testBit 1 ∧
    r.deviceState.rightInEar = (data.getD 7 0).testBit 0 := by
  have h8 : ¬ data.length < 8 := by
    intro h
    rw [parse_eq_none_short data h] at hr
    exact Option.noConfusion hr
  have h0 : byteAt data 0 = 7 := by
    by_contra h
    rw [parse_eq_none_wrong_discriminator data h] at hr
    exact Option.noConfusion hr
  rw [parse_eq_some_of data (by omega) h0] at hr
  injection hr with hr
  subst hr
  have h7 := byteAt_eq_getD hbytes (show 7 < data.length by omega)
  have b7 : data.getD 7 0 < 256 := hbytes _ (getD_mem_of_lt (by omega))
  refine ⟨?_, ?_, ?_⟩
  · show (!(byteAt data 7 &&& 0x02 != 0) && !(byteAt data 7 &&& 0x01 != 0)) =
      !((byteAt data 7 &&& 0x02 != 0) || (byteAt data 7 &&& 0x01 != 0))
    rw [Bool.not_or]
  · show (byteAt data 7 &&& 0x02 != 0) = (data.getD 7 0).testBit 1
    rw [h7, (nibble_arith _ b7).2.2.1]
  · show (byteAt data 7 &&& 0x01 != 0) = (data.getD 7 0).testBit 0
    rw [h7, (nibble_arith _ b7).2.2.2]

/-- C5 witness: the theorem applied to the captured payload. -/
theorem bothInCase_derived_witness :
    (∀ b ∈ pro2payload, b < 256) ∧
    AppleContinuityParser.Parse pro2payload = some samplePro2 ∧
    (samplePro2.deviceState.bothInCase =
      !(samplePro2.deviceState.leftInEar || samplePro2.deviceState.rightInEar) ∧
     samplePro2.deviceState.leftInEar = (pro2payload.getD 7 0).testBit 1 ∧
     samplePro2.deviceState.rightInEar = (pro2payload.getD 7 0).testBit 0) :=
  ⟨by decide, by decide, bothInCase_derived pro2payload (by decide) samplePro2 (by decide)⟩

/-- C6: once the explicit-stop flag set by `Stop()` holds (every read the
retry loop performs returns true), the restart loop triggered by a stopped
notification issues no `Start()` call: the flag is checked before each
restart attempt and the loop exits. -/
theorem no_start_after_explicit_stop (destroyRequested : Bool)
    (env : List (Bool × Bool)) (h : ∀ p ∈ env, p.1 = true) :
    WinRtBleScanner.onScannerStoppedStarts destroyRequested env = 0 := by
  unfold WinRtBleScanner.onScannerStoppedStarts
  split
  · rfl
  · cases env with
    | nil => rfl
    | cons p rest =>
      obtain ⟨f, s⟩ := p
      have hf : f = true := h (f, s) (List.mem_cons_self _ _)
      subst hf
      rfl

/-- C6 witness: the theorem applied to a one-iteration environment whose
flag read is true. -/
theorem no_start_after_explicit_stop_witness :
    (∀ p ∈ ([(true, true)] : List (Bool × Bool)), p.1 = true) ∧
    WinRtBleScanner.onScannerStoppedStarts false [(true, true)] = 0 :=
  ⟨by decide, no_start_after_explicit_stop false [(true, true)] (by decide)⟩

/-- A concrete device record used to exercise the registry model. -/
def dev0 : BleDevice :=
  { deviceId := "aabbccddeeff", address := 0xaabbccddeeff, rssi := -50
    manufacturerData := [0x07, 0x19, 0x01, 0x14, 0x20, 0x0b, 0x88, 0x8f]
    timestamp := 0, airpodsData := none }

/-- C7 counterexample: after registering callback 1 and then callback 2,
`AddDevice` invokes only callback 2 — callback 1, although previously
registered, is never invoked, because `RegisterCallback` overwrites the
single `deviceCallback_` slot. This refutes "invokes every callback
previously registered via RegisterCallback, in registration order". -/
theorem addDevice_drops_older_callback :
    (WinRtBleScanner.AddDevice
        (WinRtBleScanner.RegisterCallback
          (WinRtBleScanner.RegisterCallback WinRtBleScanner.State.initial 1) 2) dev0).2
      = [(2, dev0)] ∧
    (1, dev0) ∉ (WinRtBleScanner.AddDevice
        (WinRtBleScanner.RegisterCallback
          (WinRtBleScanner.RegisterCallback WinRtBleScanner.State.initial 1) 2) dev0).2 := by
  decide

/-- C7 amended: `AddDevice` appends the device without deduplication — a
sequence of N adds, repeated addresses included, grows the count by N —
and then synchronously invokes the most recently registered callback, if
one exists, with the device; `RegisterCallback` replaces the previously
stored callback rather than accumulating a list. -/
theorem addDevice_appends_and_notifies_latest (s : WinRtBleScanner.State) (d : BleDevice)
    (ds : List BleDevice) (cb c : Nat) :
    (WinRtBleScanner.AddDevice s d).1.devices = s.devices ++ [d] ∧
    WinRtBleScanner.GetDeviceCount (WinRtBleScanner.addAll s ds) =
      WinRtBleScanner.GetDeviceCount s + ds.length ∧
    (s.deviceCallback = some c → (WinRtBleScanner.AddDevice s d).2 = [(c, d)]) ∧
    (s.deviceCallback = none → (WinRtBleScanner.AddDevice s d).2 = []) ∧
    (WinRtBleScanner.RegisterCallback s cb).deviceCallback = some cb := by
  refine ⟨rfl, ?_, ?_, ?_, rfl⟩
  · induction ds generalizing s with
    | nil => simp [WinRtBleScanner.addAll]
    | cons dd rest ih =>
      have step : WinRtBleScanner.addAll s (dd :: rest) =
          WinRtBleScanner.addAll (WinRtBleScanner.AddDevice s dd).1 rest := rfl
      rw [step, ih]
      unfold WinRtBleScanner.GetDeviceCount WinRtBleScanner.AddDevice
      simp
      omega
  · intro hc
    unfold WinRtBleScanner.AddDevice
    rw [hc]
  · intro hc
    unfold WinRtBleScanner.AddDevice
    rw [hc]

/-- C7 amended witness: the theorem applied to a concrete state holding
callback 2, with two further devices added. -/
theorem addDevice_appends_and_notifies_latest_witness :
    ((WinRtBleScanner.AddDevice
        { devices := [], deviceCallback := some 2 } dev0).1.devices =
      ([] : List BleDevice) ++ [dev0]) ∧
    (WinRtBleScanner.GetDeviceCount
        (WinRtBleScanner.addAll { devices := [], deviceCallback := some 2 } [dev0, dev0]) =
      WinRtBleScanner.GetDeviceCount
        ({ devices := [], deviceCallback := some 2 } : WinRtBleScanner.State) +
        ([dev0, dev0] : List BleDevice).length) ∧
    (({ devices := [], deviceCallback := some 2 } : WinRtBleScanner.State).deviceCallback =
        some 2 →
      (WinRtBleScanner.AddDevice { devices := [], deviceCallback := some 2 } dev0).2 =
        [(2, dev0)]) ∧
    (({ devices := [], deviceCallback := some 2 } : WinRtBleScanner.State).deviceCallback =
        none →
      (WinRtBleScanner.AddDevice { devices := [], deviceCallback := some 2 } dev0).2 = []) ∧
    (WinRtBleScanner.RegisterCallback
        { devices := [], deviceCallback := some 2 } 5).deviceCallback = some 5 := by
  have h := addDevice_appends_and_notifies_latest
    { devices := [], deviceCallback := some 2 } dev0 [dev0, dev0] 5 2
  exact ⟨h.1, h.2.1, h.2.2.1, h.2.2.2.1, h.2.2.2.2⟩

/-- C8: `Parse` depends only on payload bytes 0, 3, 4, 5, 6 and 7: two
payloads of length at least 8 that agree at those offsets decode to equal
results, whatever their bytes 1 and 2, their bytes beyond offset 7, and
their lengths. -/
theorem parse_depends_only_on_used_offsets (d1 d2 : List Nat)
    (h1 : 8 ≤ d1.length) (h2 : 8 ≤ d2.length)
    (h : ∀ i ∈ [0, 3, 4, 5, 6, 7], d1.getD i 0 = d2.getD i 0) :
    AppleContinuityParser.Parse d1 = AppleContinuityParser.Parse d2 := by
  have e : ∀ i ∈ [0, 3, 4, 5, 6, 7], byteAt d1 i = byteAt d2 i := by
    intro i hi
    unfold byteAt
    rw [h i hi]
  by_cases h0 : byteAt d1 0 = 7
  · rw [parse_eq_some_of d1 h1 h0,
      parse_eq_some_of d2 h2 (by rw [← e 0 (by simp)]; exact h0),
      e 3 (by simp), e 4 (by simp), e 5 (by simp), e 6 (by simp), e 7 (by simp)]
  · rw [parse_eq_none_wrong_discriminator d1 h0,
      parse_eq_none_wrong_discriminator d2 (by rw [← e 0 (by simp)]; exact h0)]

/-- C8 witness: the theorem applied to two payloads that differ at offsets
1 and 2 and in length. -/
theorem parse_depends_only_on_used_offsets_witness :
    8 ≤ ([7, 1, 2, 0x14, 0x20, 0x0b, 0x88, 0x8f] : List Nat).length ∧
    8 ≤ ([7, 200, 201, 0x14, 0x20, 0x0b, 0x88, 0x8f, 99, 100] : List Nat).length ∧
    (∀ i ∈ [0, 3, 4, 5, 6, 7],
      ([7, 1, 2, 0x14, 0x20, 0x0b, 0x88, 0x8f] : List Nat).getD i 0 =
      ([7, 200, 201, 0x14, 0x20, 0x0b, 0x88, 0x8f, 99, 100] : List Nat).getD i 0) ∧
    AppleContinuityParser.Parse [7, 1, 2, 0x14, 0x20, 0x0b, 0x88, 0x8f] =
      AppleContinuityParser.Parse [7, 200, 201, 0x14, 0x20, 0x0b, 0x88, 0x8f, 99, 100] :=
  ⟨by decide, by decide, by decide,
   parse_depends_only_on_used_offsets
     [7, 1, 2, 0x14, 0x20, 0x0b, 0x88, 0x8f]
     [7, 200, 201, 0x14, 0x20, 0x0b, 0x88, 0x8f, 99, 100]
     (by decide) (by decide) (by decide)⟩

/-- C9: every successful decode reports the fixed broadcasting-side value
"right", independent of the input bytes. -/
theorem broadcastingEar_always_right (data : List Nat) (r : AirPodsData)
    (hr : AppleContinuityParser.Parse data = some r) :
    r.broadcastingEar = "right" := by
  have h8 : ¬ data.length < 8 := by
    intro h
    rw [parse_eq_none_short data h] at hr
    exact Option.noConfusion hr
  have h0 : byteAt data 0 = 7 := by
    by_contra h
    rw [parse_eq_none_wrong_discriminator data h] at hr
    exact Option.noConfusion hr
  rw [parse_eq_some_of data (by omega) h0] at hr
  injection hr with hr
  subst hr
  rfl

/-- C9 witness: the theorem applied to the captured payload. -/
theorem broadcastingEar_always_right_witness :
    samplePro2.broadcastingEar = "right" :=
  broadcastingEar_always_right pro2payload samplePro2 (by decide)

/-- C10: for every byte sequence the monolithic v5 decoder and the modular
parser either both reject or produce telemetry agreeing field for field;
translating the v5 record into the modular structure yields exactly the
modular parser's output. -/
theorem parsers_equivalent (data : List Nat) :
    (parse_airpods_data data).map toModular = AppleContinuityParser.Parse data := by
  by_cases h8 : data.length < 8
  · rw [parse_eq_none_short data h8]
    unfold parse_airpods_data
    rw [if_pos h8]
    rfl
  · by_cases h0 : byteAt data 0 = 7
    · rw [parse_eq_some_of data (by omega) h0]
      unfold parse_airpods_data
      rw [if_neg h8, if_neg (by simp [h0])]
      rfl
    · rw [parse_eq_none_wrong_discriminator data h0]
      unfold parse_airpods_data
      rw [if_neg h8, if_pos h0]
      rfl
